import Mathlib

/-!
Shallow embedding of the procedural city generator and traffic simulator of
`src/app.js` (3D City Building Simulator).  JavaScript numbers are modelled as
exact rationals (`ℚ`); numeric literals of the source are taken at their
decimal value.  The 32-bit integer mixing of the `mulberry32` generator is
modelled over `Nat` with explicit `% 2^32`, which agrees with JavaScript's
`Math.imul` / `>>>` / `^` semantics on the unsigned representatives.
`Math.pow(·, 1.8)` (used only for building heights) is modelled by the exact
real power `Real.rpow`.
-/

namespace CityApp

/-- 2^32, the modulus of all 32-bit mixing arithmetic in `mulberry32`. -/
def M32 : Nat := 4294967296

/-- State advance of `mulberry32`: the closure executes `seed += 0x6D2B79F5`
(taken mod 2^32) at the start of every call (src/app.js line 7). -/
def nextState (s : Nat) : Nat := (s + 0x6D2B79F5) % M32

/-- Output mixing of `mulberry32` applied to the already-advanced state
(src/app.js lines 8–10):
`t = imul(t ^ (t >>> 15), t | 1); t ^= t + imul(t ^ (t >>> 7), t | 61);`
`return ((t ^ (t >>> 14)) >>> 0) / 4294967296`, here just the integer
numerator before the final division. -/
def mulberryOut (s : Nat) : Nat :=
  let t1 := ((Nat.xor s (s >>> 15)) * (s ||| 1)) % M32
  let e := ((Nat.xor t1 (t1 >>> 7)) * (t1 ||| 61)) % M32
  let t2 := Nat.xor t1 ((t1 + e) % M32)
  Nat.xor t2 (t2 >>> 14)

/-- One call of the generator returned by `mulberry32`: advance the state,
return the mixed output scaled to `[0,1)` together with the new state. -/
def next (s : Nat) : ℚ × Nat :=
  (((mulberryOut (nextState s) : ℚ)) / (M32 : ℚ), nextState s)

/-- `randRange(rng, a, b) = a + (b - a) * rng()` (src/app.js line 13),
threading the generator state explicitly. -/
def randRangeM (s : Nat) (a b : ℚ) : ℚ × Nat :=
  (a + (b - a) * (next s).1, (next s).2)

/-- `randInt(rng, a, b) = Math.floor(randRange(rng, a, b + 1))`
(src/app.js line 14). -/
def randIntM (s : Nat) (a b : ℤ) : ℤ × Nat :=
  (⌊(randRangeM s (a : ℚ) ((b : ℚ) + 1)).1⌋, (randRangeM s (a : ℚ) ((b : ℚ) + 1)).2)

/-- Iterated state advance: the generator state after `n` further draws. -/
def advState : Nat → Nat → Nat
  | s, 0 => s
  | s, n + 1 => advState (nextState s) n

theorem mulberryOut_lt (s : Nat) : mulberryOut s < M32 := by
  have h32 : M32 = 2 ^ 32 := by decide
  unfold mulberryOut
  have ht1 : ((Nat.xor s (s >>> 15)) * (s ||| 1)) % M32 < 2 ^ 32 := by
    rw [← h32]; exact Nat.mod_lt _ (by decide)
  have he : ((Nat.xor (((Nat.xor s (s >>> 15)) * (s ||| 1)) % M32)
      ((((Nat.xor s (s >>> 15)) * (s ||| 1)) % M32) >>> 7)) *
      ((((Nat.xor s (s >>> 15)) * (s ||| 1)) % M32) ||| 61)) % M32 < 2 ^ 32 := by
    rw [← h32]; exact Nat.mod_lt _ (by decide)
  have hmod : ∀ x : Nat, x % M32 < 2 ^ 32 := by
    intro x; rw [← h32]; exact Nat.mod_lt _ (by decide)
  have ht2 : Nat.xor (((Nat.xor s (s >>> 15)) * (s ||| 1)) % M32)
      (((((Nat.xor s (s >>> 15)) * (s ||| 1)) % M32) +
        ((Nat.xor (((Nat.xor s (s >>> 15)) * (s ||| 1)) % M32)
          ((((Nat.xor s (s >>> 15)) * (s ||| 1)) % M32) >>> 7)) *
          ((((Nat.xor s (s >>> 15)) * (s ||| 1)) % M32) ||| 61)) % M32) % M32) < 2 ^ 32 :=
    Nat.xor_lt_two_pow ht1 (hmod _)
  rw [h32]
  refine Nat.xor_lt_two_pow ht2 (lt_of_le_of_lt ?_ ht2)
  rw [Nat.shiftRight_eq_div_pow]
  exact Nat.div_le_self _ _

theorem next_val_nonneg (s : Nat) : 0 ≤ (next s).1 := by
  unfold next
  positivity

theorem next_val_lt_one (s : Nat) : (next s).1 < 1 := by
  unfold next
  have h := mulberryOut_lt (nextState s)
  have hM : (0 : ℚ) < (M32 : ℚ) := by norm_num [M32]
  rw [div_lt_one hM]
  exact_mod_cast h

theorem randRangeM_lb (s : Nat) (a b : ℚ) (hab : a ≤ b) :
    a ≤ (randRangeM s a b).1 := by
  show a ≤ a + (b - a) * (next s).1
  have h0 := next_val_nonneg s
  nlinarith [h0, sub_nonneg.mpr hab]

theorem randRangeM_ub (s : Nat) (a b : ℚ) (hab : a < b) :
    (randRangeM s a b).1 < b := by
  show a + (b - a) * (next s).1 < b
  have h1 := next_val_lt_one s
  have h0 := next_val_nonneg s
  nlinarith [h1, h0, sub_pos.mpr hab]

theorem randIntM_lb (s : Nat) (a b : ℤ) (hab : a ≤ b) :
    a ≤ (randIntM s a b).1 := by
  show a ≤ ⌊(randRangeM s (a : ℚ) ((b : ℚ) + 1)).1⌋
  have h : (a : ℚ) ≤ (randRangeM s (a : ℚ) ((b : ℚ) + 1)).1 :=
    randRangeM_lb s _ _ (by have hc : (a : ℚ) ≤ (b : ℚ) := Int.cast_le.mpr hab; linarith)
  exact Int.le_floor.mpr h

theorem randIntM_ub (s : Nat) (a b : ℤ) (hab : a ≤ b) :
    (randIntM s a b).1 ≤ b := by
  show ⌊(randRangeM s (a : ℚ) ((b : ℚ) + 1)).1⌋ ≤ b
  have h : (randRangeM s (a : ℚ) ((b : ℚ) + 1)).1 < ((b + 1 : ℤ) : ℚ) := by
    push_cast
    exact randRangeM_ub s _ _ (by have hc : (a : ℚ) ≤ (b : ℚ) := Int.cast_le.mpr hab; linarith)
  have h2 : ⌊(randRangeM s (a : ℚ) ((b : ℚ) + 1)).1⌋ < b + 1 := Int.floor_lt.mpr h
  omega

/-! City configuration constants (src/app.js lines 233–243).  The `density`
slider value (`buildingDensity`) is the only varying input besides the seed;
it enters through `buildingCountEstimate` and `densityFactor`. -/

/-- `config.blocksX` (src/app.js line 234). -/
def blocksX : Nat := 12

/-- `config.blocksZ` (src/app.js line 235). -/
def blocksZ : Nat := 12

/-- `config.blockSize` (src/app.js line 236). -/
def blockSize : ℚ := 70

/-- `config.roadWidth` (src/app.js line 237). -/
def roadWidth : ℚ := 36

/-- `config.lotPadding` (src/app.js line 238). -/
def lotPadding : ℚ := 4

/-- `config.laneOffset` (src/app.js line 241). -/
def laneOffset : ℚ := 6

/-- `config.parkChance` (src/app.js line 242). -/
def parkChance : ℚ := 0.14

/-- `citySizeX = config.blocksX * config.blockSize` (src/app.js line 245). -/
def citySizeX : ℚ := (blocksX : ℚ) * blockSize

/-- `citySizeZ = config.blocksZ * config.blockSize` (src/app.js line 246). -/
def citySizeZ : ℚ := (blocksZ : ℚ) * blockSize

/-- JavaScript `Math.round` on the nonnegative values used here:
`Math.round(x) = Math.floor(x + 0.5)`. -/
def jsRound (x : ℚ) : ℤ := ⌊x + 1 / 2⌋

/-- `config.buildingCountEstimate = Math.round(12 * buildingDensity)`
(src/app.js line 239). -/
def buildingCountEstimate (density : ℚ) : ℤ := jsRound (12 * density)

/-- `totalEst = config.blocksX * config.blocksZ * config.buildingCountEstimate`
(src/app.js line 293), the fixed capacity of the building instance buffer. -/
def totalEst (density : ℚ) : ℤ :=
  (blocksX : ℤ) * (blocksZ : ℤ) * buildingCountEstimate density

/-- Capacity as a natural number; `idx >= totalEst` on the `Nat` counter `idx`
is equivalent to `totalEstN ≤ idx`. -/
def totalEstN (density : ℚ) : Nat := (totalEst density).toNat

/-- `blockMinX` of block column `bx` (src/app.js line 308). -/
def lotMinX (bx : Nat) : ℚ :=
  (bx : ℚ) * blockSize - citySizeX / 2 + roadWidth / 2 + lotPadding

/-- `blockMaxX` of block column `bx` (src/app.js line 309). -/
def lotMaxX (bx : Nat) : ℚ :=
  ((bx : ℚ) + 1) * blockSize - citySizeX / 2 - roadWidth / 2 - lotPadding

/-- `blockMinZ` of block row `bz` (src/app.js line 310). -/
def lotMinZ (bz : Nat) : ℚ :=
  (bz : ℚ) * blockSize - citySizeZ / 2 + roadWidth / 2 + lotPadding

/-- `blockMaxZ` of block row `bz` (src/app.js line 311). -/
def lotMaxZ (bz : Nat) : ℚ :=
  ((bz : ℚ) + 1) * blockSize - citySizeZ / 2 - roadWidth / 2 - lotPadding

/-- Axis along which a road or lane runs. -/
inductive Axis
  | x
  | z
deriving DecidableEq, Repr

/-- One road strip: `axis` is the travel/span direction, `pos` the fixed
coordinate of its centerline on the perpendicular axis (src/app.js lines
255–264: horizontal strips at `z = zi*blockSize - citySizeZ/2`, vertical
strips at `x = xi*blockSize - citySizeX/2`). -/
structure Road where
  axis : Axis
  pos : ℚ
deriving DecidableEq, Repr

/-- The road set: one x-running strip per Z grid line (`zi = 0..blocksZ`),
one z-running strip per X grid line (`xi = 0..blocksX`). -/
def roadsList : List Road :=
  ((List.range (blocksZ + 1)).map fun zi =>
    { axis := Axis.x, pos := (zi : ℚ) * blockSize - citySizeZ / 2 }) ++
  ((List.range (blocksX + 1)).map fun xi =>
    { axis := Axis.z, pos := (xi : ℚ) * blockSize - citySizeX / 2 })

/-- One generated building instance (src/app.js lines 340–353).  `bx`/`bz`
are the grid indices of the parent block; `hBase` and `hScale` are the two
raw uniform draws whose combination `hBase^1.8 * hScale` is the height. -/
structure Building where
  bx : Nat
  bz : Nat
  x : ℚ
  z : ℚ
  footprint : ℚ
  depth : ℚ
  hBase : ℚ
  hScale : ℚ
  yaw : ℚ
deriving DecidableEq, Repr

/-- The building height `Math.pow(randRange(rng,0.2,1.0), 1.8) *
randRange(rng,20,150)` (src/app.js line 346), as an exact real power. -/
noncomputable def heightR (b : Building) : ℝ :=
  ((b.hBase : ℝ) ^ (1.8 : ℝ)) * (b.hScale : ℝ)

/-- One tree of a park block: trunk and canopy share this horizontal
position (src/app.js lines 326–333; the vertical offsets 1.1 / 2.4 are
fixed). -/
structure Tree where
  x : ℚ
  z : ℚ
deriving DecidableEq, Repr

/-- One lot of a building block (src/app.js lines 342–352): the seven
uniform draws in source order: position x, position z, footprint width,
footprint depth, height base `randRange(0.2, 1.0)`, height scale
`randRange(20, 150)`, yaw jitter `randRange(-0.07, 0.07)`. -/
def genLot (bx bz : Nat) (r0 : Nat) : Building × Nat :=
  let px := randRangeM r0 (lotMinX bx) (lotMaxX bx)
  let pz := randRangeM px.2 (lotMinZ bz) (lotMaxZ bz)
  let pf := randRangeM pz.2 8 16
  let pd := randRangeM pf.2 8 16
  let pb := randRangeM pd.2 0.2 1.0
  let ps := randRangeM pb.2 20 150
  let py := randRangeM ps.2 (-0.07) 0.07
  (⟨bx, bz, px.1, pz.1, pf.1, pd.1, pb.1, ps.1, py.1⟩, py.2)

/-- The tree placement loop of a park block (src/app.js lines 325–334),
recursing on the drawn tree count: two uniform draws per tree. -/
def treeLoop (bx bz : Nat) : Nat → Nat → List Tree × Nat
  | 0, r => ([], r)
  | n + 1, r =>
    let ptx := randRangeM r (lotMinX bx + 2) (lotMaxX bx - 2)
    let ptz := randRangeM ptx.2 (lotMinZ bz + 2) (lotMaxZ bz - 2)
    let rest := treeLoop bx bz n ptz.2
    (⟨ptx.1, ptz.1⟩ :: rest.1, rest.2)

/-- The per-block lot loop (src/app.js lines 340–353): for each of the
`lots` iterations, first check `if (idx >= totalEst) break` — a `break`
that abandons the remaining lots without consuming any draws — otherwise
generate one building and increment `idx`.  Arguments: capacity, remaining
iterations, generator state, running `idx`, accumulated buildings. -/
def lotLoop (bx bz : Nat) (cap : Nat) :
    Nat → Nat → Nat → List Building → Nat × Nat × List Building
  | 0, r, idx, acc => (r, idx, acc)
  | n + 1, r, idx, acc =>
    if cap ≤ idx then (r, idx, acc)
    else
      let pb := genLot bx bz r
      lotLoop bx bz cap n pb.2 (idx + 1) (acc ++ [pb.1])

/-- Generation state threaded through the per-block loop: generator state,
building instance counter `idx`, and the accumulated outputs.  `lotsDrawn`
is pure instrumentation (not a quantity the source stores): the running sum
of the per-block lot counts drawn at src/app.js lines 338–339, used to state
the capacity-truncation property; it does not influence any other field. -/
structure GenSt where
  rng : Nat
  idx : Nat
  buildings : List Building
  trees : List Tree
  parks : List (Nat × Nat)
  lotsDrawn : Nat
deriving Repr

/-- One iteration of the nested block loop (src/app.js lines 306–355) for
block `(bx, bz)`: draw the park Bernoulli; on a park block draw the tree
count and run the tree loop; otherwise draw the lot count, scale it by the
density factor (`Math.max(2, Math.round(lots * densityFactor))`), and run
the capacity-checked lot loop. -/
def blockStep (density : ℚ) (st : GenSt) (b : Nat × Nat) : GenSt :=
  let bx := b.1
  let bz := b.2
  let pu := next st.rng
  if pu.1 < parkChance then
    let ptc := randIntM pu.2 6 14
    let pts := treeLoop bx bz ptc.1.toNat ptc.2
    { st with
      rng := pts.2
      trees := st.trees ++ pts.1
      parks := st.parks ++ [(bx, bz)] }
  else
    let plr := randIntM pu.2 8 18
    let lots := (max 2 (jsRound ((plr.1 : ℚ) * density))).toNat
    let pres := lotLoop bx bz (totalEstN density) lots plr.2 st.idx []
    { st with
      rng := pres.1
      idx := pres.2.1
      buildings := st.buildings ++ pres.2.2
      lotsDrawn := st.lotsDrawn + lots }

/-- Block visit order of the nested loop `for bx { for bz { ... } }`
(src/app.js lines 306–307). -/
def blockList : List (Nat × Nat) :=
  (List.range blocksX).flatMap fun bx =>
    (List.range blocksZ).map fun bz => (bx, bz)

/-- One travel lane (src/app.js lines 378–388): travel axis, the fixed
coordinate on the perpendicular axis (`z` for axis-x lanes, `x` for axis-z
lanes), and the direction sign. -/
structure Lane where
  axis : Axis
  coord : ℚ
  dir : ℤ
deriving DecidableEq, Repr

/-- The lane list: two opposite-direction lanes offset by `laneOffset` on
each side of every road centerline, axis-x lanes first (src/app.js lines
378–388). -/
def lanesList : List Lane :=
  ((List.range (blocksZ + 1)).flatMap fun zi =>
    let z := (zi : ℚ) * blockSize - citySizeZ / 2
    [{ axis := Axis.x, coord := z - laneOffset, dir := 1 },
     { axis := Axis.x, coord := z + laneOffset, dir := -1 }]) ++
  ((List.range (blocksX + 1)).flatMap fun xi =>
    let x := (xi : ℚ) * blockSize - citySizeX / 2
    [{ axis := Axis.z, coord := x - laneOffset, dir := 1 },
     { axis := Axis.z, coord := x + laneOffset, dir := -1 }])

/-- `carCount = Math.min(160, Math.floor((blocksX + blocksZ) * 6))`
(src/app.js line 361); the product is integral so the floor is exact. -/
def carCount : Nat := min 160 ((blocksX + blocksZ) * 6)

/-- One vehicle (src/app.js lines 390–399): lane picked by index from the
lane list, hue of the `setHSL(hue, 0.6, 0.5)` body color, speed, initial
progress `t`, and the cycle length copied from the lane's travel axis. -/
structure Car where
  laneIdx : Nat
  lane : Lane
  hue : ℚ
  speed : ℚ
  t : ℚ
  length : ℚ
deriving DecidableEq, Repr

/-- The vehicle initialization loop (src/app.js lines 391–399), drawing per
car: lane index `randInt(0, lanes.length - 1)`, hue `randRange(0, 1)`,
speed `randRange(12, 26)`, then (no draw) the cycle length from the lane
axis, then initial progress `randRange(0, 1)`. -/
def genCars : Nat → Nat → List Car × Nat
  | 0, r => ([], r)
  | n + 1, r =>
    let pli := randIntM r 0 ((lanesList.length : ℤ) - 1)
    let lane := lanesList.getD pli.1.toNat { axis := Axis.x, coord := 0, dir := 1 }
    let phue := randRangeM pli.2 0 1
    let pspd := randRangeM phue.2 12 26
    let length := if lane.axis = Axis.x then citySizeX + blockSize
      else citySizeZ + blockSize
    let pt0 := randRangeM pspd.2 0 1
    let rest := genCars n pt0.2
    (⟨pli.1.toNat, lane, phue.1, pspd.1, pt0.1, length⟩ :: rest.1, rest.2)

/-- The full city aggregate returned by one generation pass (src/app.js
lines 402–411), restricted to the deterministic geometric outputs: the
three facade-texture draws, roads, park classification, trees, buildings
with their instance count, lanes, and the initial vehicle population. -/
structure CityModel where
  facadeCols : ℤ
  facadeRows : ℤ
  facadeBase : ℤ
  roads : List Road
  parks : List (Nat × Nat)
  trees : List Tree
  buildings : List Building
  buildingCount : Nat
  lanes : List Lane
  cars : List Car
  seed : Nat
deriving Repr

/-- Generation state after the three facade-texture draws (src/app.js lines
286–287: `randInt(rng,6,10)`, `randInt(rng,12,20)`, `randInt(rng,0,3)`) and
the whole block loop. -/
def cityGen (seed : Nat) (density : ℚ) : GenSt :=
  let pc := randIntM seed 6 10
  let pr := randIntM pc.2 12 20
  let pb := randIntM pr.2 0 3
  List.foldl (blockStep density)
    { rng := pb.2, idx := 0, buildings := [], trees := [], parks := [],
      lotsDrawn := 0 } blockList

/-- Assembly of the returned city object (src/app.js lines 356–411) from
the block-loop result `st`: the facade-texture draws are the first three
draws of the stream (they are re-derived from the seed here), the vehicle
loop continues from the state `st.rng` left by the block loop. -/
def assembleCity (seed : Nat) (st : GenSt) : CityModel :=
  let pc := randIntM seed 6 10
  let pr := randIntM pc.2 12 20
  let pb := randIntM pr.2 0 3
  let pcars := genCars carCount st.rng
  { facadeCols := pc.1
    facadeRows := pr.1
    facadeBase := pb.1
    roads := roadsList
    parks := st.parks
    trees := st.trees
    buildings := st.buildings
    buildingCount := st.idx
    lanes := lanesList
    cars := pcars.1
    seed := seed }

/-- The generation pipeline `createCity(seed)` (src/app.js lines 229–412)
as a pure function of the seed and the density slider value: facade draws,
block loop, then the vehicle initialization loop, all drawing from the one
`mulberry32(seed)` stream in source order. -/
def createCityModel (seed : Nat) (density : ℚ) : CityModel :=
  assembleCity seed (cityGen seed density)

/-! Loop invariants of the block/lot loops. -/

theorem lotLoop_idx (bx bz cap : Nat) :
    ∀ (n r idx : Nat) (acc : List Building), idx ≤ cap →
      (lotLoop bx bz cap n r idx acc).2.1 = min cap (idx + n) := by
  intro n
  induction n with
  | zero =>
    intro r idx acc h
    simp only [lotLoop]
    omega
  | succ n ih =>
    intro r idx acc h
    simp only [lotLoop]
    split
    · simp only []
      omega
    · rw [ih _ _ _ (by omega)]
      omega

theorem lotLoop_len (bx bz cap : Nat) :
    ∀ (n r idx : Nat) (acc : List Building), idx ≤ cap →
      (lotLoop bx bz cap n r idx acc).2.2.length =
        acc.length + ((lotLoop bx bz cap n r idx acc).2.1 - idx) := by
  intro n
  induction n with
  | zero =>
    intro r idx acc h
    simp only [lotLoop]
    omega
  | succ n ih =>
    intro r idx acc h
    simp only [lotLoop]
    split
    · simp only []
      omega
    · rw [ih _ _ _ (by omega), lotLoop_idx bx bz cap _ _ _ _ (by omega)]
      have hge : idx ≤ min cap (idx + 1 + n) := by omega
      simp only [List.length_append, List.length_cons, List.length_nil]
      omega

theorem lotLoop_mem (bx bz cap : Nat) :
    ∀ (n r idx : Nat) (acc : List Building) (b : Building),
      b ∈ (lotLoop bx bz cap n r idx acc).2.2 →
        b ∈ acc ∨ ∃ s, b = (genLot bx bz s).1 := by
  intro n
  induction n with
  | zero =>
    intro r idx acc b hb
    exact Or.inl hb
  | succ n ih =>
    intro r idx acc b hb
    simp only [lotLoop] at hb
    split at hb
    · exact Or.inl hb
    · rcases ih _ _ _ _ hb with hacc | hgen
      · rcases List.mem_append.mp hacc with h | h
        · exact Or.inl h
        · exact Or.inr ⟨r, List.mem_singleton.mp h⟩
      · exact Or.inr hgen

/-- The generation-loop invariant: the instance counter equals the lot sum
clamped at the capacity, and the buildings list has exactly `idx` entries. -/
def GenInv (cap : Nat) (st : GenSt) : Prop :=
  st.idx = min cap st.lotsDrawn ∧ st.buildings.length = st.idx

theorem blockStep_inv (density : ℚ) (st : GenSt) (p : Nat × Nat)
    (h : GenInv (totalEstN density) st) :
    GenInv (totalEstN density) (blockStep density st p) := by
  obtain ⟨h1, h2⟩ := h
  have hle : st.idx ≤ totalEstN density := by omega
  by_cases hc : (next st.rng).1 < parkChance
  · unfold blockStep
    simp only [if_pos hc]
    exact ⟨h1, h2⟩
  · unfold blockStep
    simp only [if_neg hc]
    constructor
    · rw [lotLoop_idx _ _ _ _ _ _ _ hle]
      simp only []
      omega
    · simp only []
      rw [List.length_append, lotLoop_len _ _ _ _ _ _ _ hle,
        lotLoop_idx _ _ _ _ _ _ _ hle]
      simp only [List.length_nil]
      omega

theorem foldl_blockStep_inv (density : ℚ) :
    ∀ (l : List (Nat × Nat)) (st : GenSt), GenInv (totalEstN density) st →
      GenInv (totalEstN density) (List.foldl (blockStep density) st l) := by
  intro l
  induction l with
  | nil => intro st h; exact h
  | cons p l ih =>
    intro st h
    exact ih _ (blockStep_inv density st p h)

/-- Every building held by the generation state came out of `genLot` for its
recorded block indices, which lie inside the grid. -/
def LotOk (b : Building) : Prop :=
  b.bx < blocksX ∧ b.bz < blocksZ ∧ ∃ s, b = (genLot b.bx b.bz s).1

theorem blockStep_mem (density : ℚ) (st : GenSt) (p : Nat × Nat)
    (hp1 : p.1 < blocksX) (hp2 : p.2 < blocksZ)
    (h : ∀ b ∈ st.buildings, LotOk b) :
    ∀ b ∈ (blockStep density st p).buildings, LotOk b := by
  intro b hb
  by_cases hc : (next st.rng).1 < parkChance
  · unfold blockStep at hb
    simp only [if_pos hc] at hb
    exact h b hb
  · unfold blockStep at hb
    simp only [if_neg hc, List.mem_append] at hb
    rcases hb with hold | hnew
    · exact h b hold
    · rcases lotLoop_mem _ _ _ _ _ _ _ _ hnew with hacc | ⟨s, hs⟩
      · simp at hacc
      · subst hs
        exact ⟨hp1, hp2, s, rfl⟩

theorem foldl_blockStep_mem (density : ℚ) :
    ∀ (l : List (Nat × Nat)) (st : GenSt),
      (∀ p ∈ l, p.1 < blocksX ∧ p.2 < blocksZ) →
      (∀ b ∈ st.buildings, LotOk b) →
      ∀ b ∈ (List.foldl (blockStep density) st l).buildings, LotOk b := by
  intro l
  induction l with
  | nil => intro st _ h; exact h
  | cons p l ih =>
    intro st hl h
    refine ih _ (fun q hq => hl q (List.mem_cons_of_mem _ hq)) ?_
    exact blockStep_mem density st p (hl p (List.mem_cons_self _ _)).1
      (hl p (List.mem_cons_self _ _)).2 h

theorem blockList_lt : ∀ p ∈ blockList, p.1 < blocksX ∧ p.2 < blocksZ := by
  intro p hp
  unfold blockList at hp
  rcases List.mem_flatMap.mp hp with ⟨bx, hbx, hmem⟩
  rcases List.mem_map.mp hmem with ⟨bz, hbz, rfl⟩
  exact ⟨List.mem_range.mp hbx, List.mem_range.mp hbz⟩

theorem cityGen_inv (seed : Nat) (density : ℚ) :
    GenInv (totalEstN density) (cityGen seed density) := by
  unfold cityGen
  refine foldl_blockStep_inv density blockList _ ⟨?_, rfl⟩
  simp

theorem assembleCity_buildings (seed : Nat) (st : GenSt) :
    (assembleCity seed st).buildings = st.buildings := rfl

theorem assembleCity_count (seed : Nat) (st : GenSt) :
    (assembleCity seed st).buildingCount = st.idx := rfl

theorem createCityModel_buildings_eq (seed : Nat) (density : ℚ) :
    (createCityModel seed density).buildings = (cityGen seed density).buildings := by
  rw [createCityModel]
  exact assembleCity_buildings seed (cityGen seed density)

theorem createCityModel_count_eq (seed : Nat) (density : ℚ) :
    (createCityModel seed density).buildingCount = (cityGen seed density).idx := by
  rw [createCityModel]
  exact assembleCity_count seed (cityGen seed density)

theorem createCityModel_buildings_ok (seed : Nat) (density : ℚ) :
    ∀ b ∈ (createCityModel seed density).buildings, LotOk b := by
  intro b hb
  rw [createCityModel_buildings_eq] at hb
  unfold cityGen at hb
  exact foldl_blockStep_mem density blockList _ blockList_lt (by simp) b hb

/-! Membership of a concrete early building, used to instantiate the
per-building theorems: the block loop only ever appends to the buildings
list, so membership in an early block's output persists to the end. -/

theorem blockStep_buildings_mono (density : ℚ) (st : GenSt) (p : Nat × Nat)
    (b : Building) (hb : b ∈ st.buildings) :
    b ∈ (blockStep density st p).buildings := by
  by_cases hc : (next st.rng).1 < parkChance
  · simp only [blockStep, if_pos hc]
    exact hb
  · simp only [blockStep, if_neg hc]
    exact List.mem_append_left _ hb

theorem foldl_buildings_mono (density : ℚ) :
    ∀ (l : List (Nat × Nat)) (st : GenSt) (b : Building),
      b ∈ st.buildings → b ∈ (List.foldl (blockStep density) st l).buildings := by
  intro l
  induction l with
  | nil => intro st b hb; exact hb
  | cons p t ih =>
    intro st b hb
    exact ih _ b (blockStep_buildings_mono density st p b hb)

theorem mem_foldl_headI (density : ℚ) (l : List (Nat × Nat)) (st : GenSt)
    (b : Building) (hne : l ≠ [])
    (hb : b ∈ (blockStep density st l.headI).buildings) :
    b ∈ (List.foldl (blockStep density) st l).buildings := by
  cases l with
  | nil => exact absurd rfl hne
  | cons p t =>
    rw [List.foldl_cons]
    exact foldl_buildings_mono density t _ b hb

theorem lotLoop_acc_mem (bx bz cap : Nat) :
    ∀ (n r idx : Nat) (acc : List Building) (b : Building), b ∈ acc →
      b ∈ (lotLoop bx bz cap n r idx acc).2.2 := by
  intro n
  induction n with
  | zero => intro r idx acc b hb; exact hb
  | succ n ih =>
    intro r idx acc b hb
    simp only [lotLoop]
    split
    · exact hb
    · exact ih _ _ _ _ (List.mem_append_left _ hb)

theorem lotLoop_first_mem (bx bz cap n r idx : Nat) (acc : List Building)
    (hn : n ≠ 0) (hidx : idx < cap) :
    (genLot bx bz r).1 ∈ (lotLoop bx bz cap n r idx acc).2.2 := by
  cases n with
  | zero => exact absurd rfl hn
  | succ m =>
    simp only [lotLoop]
    rw [if_neg (by omega)]
    exact lotLoop_acc_mem bx bz cap m _ _ _ _
      (List.mem_append_right _ (List.mem_singleton.mpr rfl))

/-! Per-lot bounds: every field of a `genLot` output lies in the half-open
interval of its `randRange` draw. -/

theorem lot_x_lt (bx : Nat) : lotMinX bx < lotMaxX bx := by
  unfold lotMinX lotMaxX blockSize roadWidth lotPadding
  ring_nf
  linarith

theorem lot_z_lt (bz : Nat) : lotMinZ bz < lotMaxZ bz := by
  unfold lotMinZ lotMaxZ blockSize roadWidth lotPadding
  ring_nf
  linarith

theorem genLot_x_mem (bx bz s : Nat) :
    lotMinX bx ≤ (genLot bx bz s).1.x ∧ (genLot bx bz s).1.x < lotMaxX bx :=
  ⟨randRangeM_lb _ _ _ (le_of_lt (lot_x_lt bx)), randRangeM_ub _ _ _ (lot_x_lt bx)⟩

theorem genLot_z_mem (bx bz s : Nat) :
    lotMinZ bz ≤ (genLot bx bz s).1.z ∧ (genLot bx bz s).1.z < lotMaxZ bz :=
  ⟨randRangeM_lb _ _ _ (le_of_lt (lot_z_lt bz)), randRangeM_ub _ _ _ (lot_z_lt bz)⟩

theorem genLot_footprint_mem (bx bz s : Nat) :
    8 ≤ (genLot bx bz s).1.footprint ∧ (genLot bx bz s).1.footprint < 16 :=
  ⟨randRangeM_lb _ _ _ (by norm_num), randRangeM_ub _ _ _ (by norm_num)⟩

theorem genLot_depth_mem (bx bz s : Nat) :
    8 ≤ (genLot bx bz s).1.depth ∧ (genLot bx bz s).1.depth < 16 :=
  ⟨randRangeM_lb _ _ _ (by norm_num), randRangeM_ub _ _ _ (by norm_num)⟩

theorem genLot_hBase_mem (bx bz s : Nat) :
    0.2 ≤ (genLot bx bz s).1.hBase ∧ (genLot bx bz s).1.hBase < 1 := by
  refine ⟨randRangeM_lb _ _ _ (by norm_num), ?_⟩
  have h2 : (genLot bx bz s).1.hBase < (1.0 : ℚ) :=
    randRangeM_ub _ _ _ (by norm_num)
  calc (genLot bx bz s).1.hBase < (1.0 : ℚ) := h2
    _ = 1 := by norm_num

theorem genLot_hScale_mem (bx bz s : Nat) :
    20 ≤ (genLot bx bz s).1.hScale ∧ (genLot bx bz s).1.hScale < 150 :=
  ⟨randRangeM_lb _ _ _ (by norm_num), randRangeM_ub _ _ _ (by norm_num)⟩

/-! Positions of the height draws in the per-lot draw sequence. -/

theorem genLot_footprint_draw (bx bz s : Nat) :
    (genLot bx bz s).1.footprint = (randRangeM (advState s 2) 8 16).1 := rfl

theorem genLot_depth_draw (bx bz s : Nat) :
    (genLot bx bz s).1.depth = (randRangeM (advState s 3) 8 16).1 := rfl

theorem genLot_hBase_draw (bx bz s : Nat) :
    (genLot bx bz s).1.hBase = (randRangeM (advState s 4) 0.2 1.0).1 := rfl

theorem genLot_hScale_draw (bx bz s : Nat) :
    (genLot bx bz s).1.hScale = (randRangeM (advState s 5) 20 150).1 := rfl

/-! Height bounds through the exact real power. -/

theorem cast_point_two : ((0.2 : ℚ) : ℝ) = (0.2 : ℝ) := by norm_num

theorem hBase_cast_lb (b : Building) (hb0 : (0.2 : ℚ) ≤ b.hBase) :
    (0.2 : ℝ) ≤ (b.hBase : ℝ) := by
  rw [← cast_point_two]
  exact Rat.cast_le.mpr hb0

theorem heightR_nonneg (b : Building) (hb0 : (0.2 : ℚ) ≤ b.hBase)
    (h20 : (20 : ℚ) ≤ b.hScale) :
    0 ≤ heightR b := by
  unfold heightR
  have hs : (0 : ℝ) ≤ (b.hScale : ℝ) := by
    have h : ((20 : ℚ) : ℝ) ≤ (b.hScale : ℝ) := Rat.cast_le.mpr h20
    push_cast at h
    linarith
  have hb : (0 : ℝ) ≤ (b.hBase : ℝ) := le_trans (by norm_num) (hBase_cast_lb b hb0)
  exact mul_nonneg (Real.rpow_nonneg hb _) hs

theorem heightR_le (b : Building) (hb0 : (0.2 : ℚ) ≤ b.hBase)
    (hb1 : b.hBase < 1) (hs0 : (20 : ℚ) ≤ b.hScale) (hs1 : b.hScale < 150) :
    heightR b ≤ 150 := by
  unfold heightR
  have hb1R : (b.hBase : ℝ) ≤ 1 := by
    have h : (b.hBase : ℝ) < 1 := by exact_mod_cast hb1
    linarith
  have hs1R : (b.hScale : ℝ) ≤ 150 := by
    have h : (b.hScale : ℝ) < 150 := by exact_mod_cast hs1
    linarith
  have hs0R : (0 : ℝ) ≤ (b.hScale : ℝ) := by
    have h : (20 : ℝ) ≤ (b.hScale : ℝ) := by exact_mod_cast hs0
    linarith
  have hb0R : (0 : ℝ) ≤ (b.hBase : ℝ) :=
    le_trans (by norm_num) (hBase_cast_lb b hb0)
  have hple : (b.hBase : ℝ) ^ (1.8 : ℝ) ≤ 1 :=
    Real.rpow_le_one hb0R hb1R (by norm_num)
  calc (b.hBase : ℝ) ^ (1.8 : ℝ) * (b.hScale : ℝ)
      ≤ 1 * 150 := mul_le_mul hple hs1R hs0R (by norm_num)
    _ = 150 := by norm_num

theorem heightR_lb (b : Building) (hb0 : (0.2 : ℚ) ≤ b.hBase)
    (hs0 : (20 : ℚ) ≤ b.hScale) :
    (0.2 : ℝ) ^ (1.8 : ℝ) * 20 ≤ heightR b := by
  unfold heightR
  have hb0R : (0.2 : ℝ) ≤ (b.hBase : ℝ) := hBase_cast_lb b hb0
  have hs0R : (20 : ℝ) ≤ (b.hScale : ℝ) := by exact_mod_cast hs0
  have hp : (0.2 : ℝ) ^ (1.8 : ℝ) ≤ (b.hBase : ℝ) ^ (1.8 : ℝ) :=
    Real.rpow_le_rpow (by norm_num) hb0R (by norm_num)
  calc (0.2 : ℝ) ^ (1.8 : ℝ) * 20
      ≤ (b.hBase : ℝ) ^ (1.8 : ℝ) * (b.hScale : ℝ) :=
        mul_le_mul hp hs0R (by norm_num) (by positivity)
    _ = (b.hBase : ℝ) ^ (1.8 : ℝ) * (b.hScale : ℝ) := rfl

theorem heightR_lb_pos : (0 : ℝ) < (0.2 : ℝ) ^ (1.8 : ℝ) * 20 := by
  have := Real.rpow_pos_of_pos (show (0 : ℝ) < 0.2 by norm_num) (1.8 : ℝ)
  positivity

/-! Traffic simulator (src/app.js lines 460–503). -/

/-- JavaScript's remainder `x % 1`: `x` minus `x` truncated toward zero.
On the nonnegative values arising in the traffic update it coincides with
the fractional part. -/
def jsMod1 (x : ℚ) : ℚ := x - (if 0 ≤ x then ((⌊x⌋ : ℤ) : ℚ) else ((⌈x⌉ : ℤ) : ℚ))

/-- The per-tick progress update
`car.t = (car.t + (car.speed * dt) / car.length) % 1` (src/app.js line 466). -/
def advanceT (t speed dt length : ℚ) : ℚ := jsMod1 (t + speed * dt / length)

/-- One `updateTraffic` tick applied to a vehicle's state: only `t`
changes (src/app.js line 466); lane, speed, color and length are never
written. -/
def carTick (c : Car) (dt : ℚ) : Car :=
  { c with t := advanceT c.t c.speed dt c.length }

/-- A finite sequence of ticks. -/
def carTicks (c : Car) (dts : List ℚ) : Car := dts.foldl carTick c

/-- The world position (x, z) computed from a vehicle's progress each tick
(src/app.js lines 467–480): `pos = t * length - length / 2`, placed on the
travel axis with the direction sign, with the perpendicular coordinate
taken verbatim from the lane. -/
def carPos (lane : Lane) (t length : ℚ) : ℚ × ℚ :=
  let pos := t * length - length / 2
  match lane.axis with
  | Axis.x => (if lane.dir > 0 then pos else -pos, lane.coord)
  | Axis.z => (lane.coord, if lane.dir > 0 then pos else -pos)

/-- The vehicle yaw set each tick (src/app.js lines 473 and 479): one of
the four cardinal headings, a function of `(lane.axis, lane.dir)` only. -/
noncomputable def carYaw (lane : Lane) : ℝ :=
  match lane.axis with
  | Axis.x => if lane.dir > 0 then -(Real.pi / 2) else Real.pi / 2
  | Axis.z => if lane.dir > 0 then 0 else Real.pi

/-- The coordinate of a world position on the lane's fixed (non-travel)
axis: `z` for axis-x lanes, `x` for axis-z lanes. -/
def perpCoord (lane : Lane) (p : ℚ × ℚ) : ℚ :=
  match lane.axis with
  | Axis.x => p.2
  | Axis.z => p.1

/-! Axis-aligned rectangles for the road-overlap analysis. -/

/-- A closed axis-aligned rectangle on the ground plane. -/
structure Rect where
  xmin : ℚ
  xmax : ℚ
  zmin : ℚ
  zmax : ℚ
deriving DecidableEq, Repr

/-- The ground rectangle covered by a road strip: the plane geometry is
`(citySize + blockSize) × roadWidth` centered on the strip's position
(src/app.js lines 252–264). -/
def roadRect (r : Road) : Rect :=
  match r.axis with
  | Axis.x =>
    { xmin := -(citySizeX + blockSize) / 2, xmax := (citySizeX + blockSize) / 2,
      zmin := r.pos - roadWidth / 2, zmax := r.pos + roadWidth / 2 }
  | Axis.z =>
    { xmin := r.pos - roadWidth / 2, xmax := r.pos + roadWidth / 2,
      zmin := -(citySizeZ + blockSize) / 2, zmax := (citySizeZ + blockSize) / 2 }

/-- A building's ground footprint, ignoring the small yaw jitter: the
center extended by half the footprint width and half the depth. -/
def footRect (b : Building) : Rect :=
  { xmin := b.x - b.footprint / 2, xmax := b.x + b.footprint / 2,
    zmin := b.z - b.depth / 2, zmax := b.z + b.depth / 2 }

/-- The square of half-extent `lotPadding` around a building's center. -/
def padRect (b : Building) : Rect :=
  { xmin := b.x - lotPadding, xmax := b.x + lotPadding,
    zmin := b.z - lotPadding, zmax := b.z + lotPadding }

/-- Positive-area intersection of two rectangles. -/
def rectOverlap (a b : Rect) : Prop :=
  a.xmin < b.xmax ∧ b.xmin < a.xmax ∧ a.zmin < b.zmax ∧ b.zmin < a.zmax

instance (a b : Rect) : Decidable (rectOverlap a b) := by
  unfold rectOverlap; infer_instance

/-! Lifecycle: `disposeCity` (src/app.js lines 414–427).  The THREE.js side
effects are modelled at the boundary: the scene holds a set of group ids,
and every `dispose()` invocation on a geometry/material/texture is
recorded, one per reference.  The `traverse` walk visits each scene-graph
node once and calls `obj.geometry?.dispose?.()` and disposes the node's
material (or each element of a material array), so a geometry or material
shared by several nodes is disposed once per referencing node; the
`materials` table loop then disposes each entry's `map` and `emissiveMap`
texture, so a texture used for both slots is disposed twice.  Every call in
the body is either total (`scene.remove`) or guarded by optional chaining
(`?.dispose?.()`), so the function has no throwing path; it is embedded in
`Except` to make that explicit. -/

/-- One node of a city group's scene graph as seen by the `traverse` walk
(src/app.js lines 417–422): its optional geometry id and the ids of its
material (a singleton for a plain material, several for an array material,
empty for plain `Group` nodes).  Distinct nodes may reference the same
geometry or material id — the source shares `roadGeoH`, `roadMat`,
`trunkGeo`, `sidewalkMat`, … across many meshes. -/
structure SceneNode where
  geometry : Option Nat
  material : List Nat
deriving DecidableEq, Repr

/-- One entry of the city's `materials` table (src/app.js lines 409 and
423–426): its optional `map` and `emissiveMap` texture ids.  For the
building material both slots hold the same facade texture. -/
structure MatEntry where
  map : Option Nat
  emissiveMap : Option Nat
deriving DecidableEq, Repr

/-- A city as seen by the lifecycle manager: its scene group id, the scene
nodes its `traverse` walk visits, and its `materials` table. -/
structure CityRes where
  group : Nat
  nodes : List SceneNode
  materials : List MatEntry
deriving DecidableEq, Repr

/-- External renderer state touched by `disposeCity`. -/
structure RenderWorld where
  sceneGroups : List Nat
  disposeCalls : List Nat
deriving DecidableEq, Repr

/-- The `dispose()` invocations one `disposeCity` call issues, in source
order: per visited node one call for its geometry (when present) and one
per material id (src/app.js lines 417–422), then per `materials`-table
entry one call for `map` and one for `emissiveMap` when present (lines
423–426).  A resource id referenced several times appears once per
reference. -/
def ownedDisposeCalls (c : CityRes) : List Nat :=
  (c.nodes.flatMap fun n => n.geometry.toList ++ n.material) ++
  (c.materials.flatMap fun m => m.map.toList ++ m.emissiveMap.toList)

/-- `disposeCity(c)`: `if (!c) return;` then remove the group from the
scene and issue the dispose calls of the traversal and the materials
table.  No step can throw, so the result is always `Except.ok`. -/
def disposeCity (c : Option CityRes) (w : RenderWorld) : Except String RenderWorld :=
  match c with
  | none => Except.ok w
  | some c =>
    Except.ok
      { sceneGroups := w.sceneGroups.erase c.group
        disposeCalls := w.disposeCalls ++ ownedDisposeCalls c }

/-- The road group's scene nodes (src/app.js lines 252–264): one mesh per
Z grid line, all sharing the horizontal road plane geometry `geoH` and the
road material `mat`, then one mesh per X grid line, all sharing the
vertical road plane geometry `geoV` and the same material. -/
def roadGroupNodes (geoH geoV mat : Nat) : List SceneNode :=
  ((List.range (blocksZ + 1)).map fun _ =>
    { geometry := some geoH, material := [mat] }) ++
  ((List.range (blocksX + 1)).map fun _ =>
    { geometry := some geoV, material := [mat] })

/-- A city holding exactly the road group of `createCity` (13 meshes on
geometry 1 and 13 on geometry 2, all on material 3) and the building
material's `materials`-table entry, whose `map` and `emissiveMap` are the
same facade texture 4 (src/app.js lines 289–291 and 409). -/
def roadsOnlyCity : CityRes :=
  { group := 0
    nodes := roadGroupNodes 1 2 3
    materials := [{ map := some 4, emissiveMap := some 4 }] }

/-! Road membership and the padding-square separation argument. -/

theorem roadsList_mem (r : Road) (hr : r ∈ roadsList) :
    (r.axis = Axis.x ∧ ∃ zi : Nat, zi ≤ blocksZ ∧
      r.pos = (zi : ℚ) * blockSize - citySizeZ / 2) ∨
    (r.axis = Axis.z ∧ ∃ xi : Nat, xi ≤ blocksX ∧
      r.pos = (xi : ℚ) * blockSize - citySizeX / 2) := by
  unfold roadsList at hr
  rcases List.mem_append.mp hr with h | h
  · rcases List.mem_map.mp h with ⟨zi, hzi, rfl⟩
    exact Or.inl ⟨rfl, zi, by have := List.mem_range.mp hzi; omega, rfl⟩
  · rcases List.mem_map.mp h with ⟨xi, hxi, rfl⟩
    exact Or.inr ⟨rfl, xi, by have := List.mem_range.mp hxi; omega, rfl⟩

theorem padRect_road_disjoint (b : Building) (hb : LotOk b)
    (r : Road) (hr : r ∈ roadsList) :
    ¬ rectOverlap (padRect b) (roadRect r) := by
  obtain ⟨hbx, hbz, s, hbs⟩ := hb
  have hxm := genLot_x_mem b.bx b.bz s
  have hzm := genLot_z_mem b.bx b.bz s
  rw [← hbs] at hxm hzm
  obtain ⟨hx1, hx2⟩ := hxm
  obtain ⟨hz1, hz2⟩ := hzm
  rcases roadsList_mem r hr with ⟨hax, zi, hzi, hpos⟩ | ⟨hax, xi, hxi, hpos⟩
  · intro hov
    obtain ⟨ax, pos⟩ := r
    simp only at hax hpos
    subst hax hpos
    unfold rectOverlap padRect roadRect at hov
    simp only at hov
    obtain ⟨h1, h2, h3, h4⟩ := hov
    simp only [lotMinZ, lotMaxZ] at hz1 hz2
    unfold blockSize citySizeZ blocksZ roadWidth lotPadding at *
    rcases le_or_lt zi b.bz with hle | hlt
    · have hc : (zi : ℚ) ≤ (b.bz : ℚ) := by exact_mod_cast hle
      push_cast at hz1 hz2 h3 h4
      linarith
    · have hc : (b.bz : ℚ) + 1 ≤ (zi : ℚ) := by exact_mod_cast hlt
      push_cast at hz1 hz2 h3 h4
      linarith
  · intro hov
    obtain ⟨ax, pos⟩ := r
    simp only at hax hpos
    subst hax hpos
    unfold rectOverlap padRect roadRect at hov
    simp only at hov
    obtain ⟨h1, h2, h3, h4⟩ := hov
    simp only [lotMinX, lotMaxX] at hx1 hx2
    unfold blockSize citySizeX blocksX roadWidth lotPadding at *
    rcases le_or_lt xi b.bx with hle | hlt
    · have hc : (xi : ℚ) ≤ (b.bx : ℚ) := by exact_mod_cast hle
      push_cast at hx1 hx2 h1 h2
      linarith
    · have hc : (b.bx : ℚ) + 1 ≤ (xi : ℚ) := by exact_mod_cast hlt
      push_cast at hx1 hx2 h1 h2
      linarith

/-! Exactness of the modular progress update over the rationals. -/

theorem jsMod1_of_nonneg (x : ℚ) (hx : 0 ≤ x) : jsMod1 x = Int.fract x := by
  unfold jsMod1 Int.fract
  rw [if_pos hx]

theorem foldl_tick_eq (L : ℚ) (hL : 0 < L) :
    ∀ (ps : List ℚ) (a : ℚ), (∀ p ∈ ps, 0 < p) →
      List.foldl (fun t p => jsMod1 (t + p / L)) (Int.fract a) ps =
        Int.fract (a + ps.sum / L) := by
  intro ps
  induction ps with
  | nil => intro a h; simp
  | cons p t ih =>
    intro a h
    rw [List.foldl_cons]
    have hp : 0 < p := h p (List.mem_cons_self _ _)
    have harg : 0 ≤ Int.fract a + p / L := by
      have := Int.fract_nonneg a
      have : 0 ≤ p / L := le_of_lt (div_pos hp hL)
      positivity
    rw [jsMod1_of_nonneg _ harg]
    have hff : Int.fract (Int.fract a + p / L) = Int.fract (a + p / L) := by
      have he : Int.fract a + p / L = a + p / L - (⌊a⌋ : ℚ) := by
        unfold Int.fract
        ring
      rw [he, Int.fract_sub_int]
    rw [hff, ih (a + p / L) (fun q hq => h q (List.mem_cons_of_mem _ hq))]
    congr 1
    rw [List.sum_cons]
    field_simp
    ring

/-! Frame lemmas for the per-tick vehicle update: only `t` is written. -/

theorem carTick_lane (c : Car) (dt : ℚ) : (carTick c dt).lane = c.lane := rfl

theorem carTicks_lane (c : Car) (dts : List ℚ) :
    (carTicks c dts).lane = c.lane := by
  induction dts generalizing c with
  | nil => rfl
  | cons dt dts ih => exact ih (carTick c dt)

theorem carTicks_length (c : Car) (dts : List ℚ) :
    (carTicks c dts).length = c.length := by
  induction dts generalizing c with
  | nil => rfl
  | cons dt dts ih => exact ih (carTick c dt)

theorem carYaw_cases (lane : Lane) :
    carYaw lane = -(Real.pi / 2) ∨ carYaw lane = Real.pi / 2 ∨
      carYaw lane = 0 ∨ carYaw lane = Real.pi := by
  obtain ⟨ax, coord, dir⟩ := lane
  cases ax with
  | x =>
    by_cases hd : dir > 0
    · exact Or.inl (by simp [carYaw, hd])
    · exact Or.inr (Or.inl (by simp [carYaw, hd]))
  | z =>
    by_cases hd : dir > 0
    · exact Or.inr (Or.inr (Or.inl (by simp [carYaw, hd])))
    · exact Or.inr (Or.inr (Or.inr (by simp [carYaw, hd])))

theorem perpCoord_carPos (lane : Lane) (t L : ℚ) :
    perpCoord lane (carPos lane t L) = lane.coord := by
  obtain ⟨ax, coord, dir⟩ := lane
  cases ax with
  | x => rfl
  | z => rfl

/-! Claim theorems. -/

/-- C1: Generation determinism — for every fixed pair (seed, density) with
the fixed built-in configuration, two independent runs of the generation
pipeline produce identical outputs: the same road segment positions, the
same per-block park/building classification, the same sequence of building
transforms, the same tree placements, the same lane list, and the same
initial vehicle tuples, because all randomness is drawn in a fixed order
from one mulberry32 generator seeded once (the pipeline is a pure function
of `(seed, density)`). -/
theorem claim_c1_generation_deterministic (seed : Nat) (density : ℚ)
    (c1 c2 : CityModel)
    (h1 : c1 = createCityModel seed density)
    (h2 : c2 = createCityModel seed density) :
    c1.roads = c2.roads ∧ c1.parks = c2.parks ∧ c1.buildings = c2.buildings ∧
      c1.trees = c2.trees ∧ c1.lanes = c2.lanes ∧ c1.cars = c2.cars := by
  subst h1
  subst h2
  exact ⟨rfl, rfl, rfl, rfl, rfl, rfl⟩

theorem claim_c1_witness :
    (createCityModel 1 1).roads = (createCityModel 1 1).roads ∧
    (createCityModel 1 1).parks = (createCityModel 1 1).parks ∧
    (createCityModel 1 1).buildings = (createCityModel 1 1).buildings ∧
    (createCityModel 1 1).trees = (createCityModel 1 1).trees ∧
    (createCityModel 1 1).lanes = (createCityModel 1 1).lanes ∧
    (createCityModel 1 1).cars = (createCityModel 1 1).cars :=
  claim_c1_generation_deterministic 1 1 (createCityModel 1 1)
    (createCityModel 1 1) rfl rfl

/-- C2: Capacity overflow-drop — for every seed and density the number of
building instances never exceeds the pre-sized capacity
`totalEst = blocksX * blocksZ * round(12 * density)`; the final count equals
the running sum of drawn lot counts clamped at that capacity, so when the
cumulative lot draws would exceed the capacity the final count equals
exactly the capacity, and remaining lots are silently skipped (the loop
breaks with no error and no resize). -/
theorem claim_c2_capacity_truncation (seed : Nat) (density : ℚ) :
    (createCityModel seed density).buildingCount ≤ totalEstN density ∧
    (createCityModel seed density).buildings.length =
      min (totalEstN density) (cityGen seed density).lotsDrawn ∧
    (createCityModel seed density).buildingCount =
      min (totalEstN density) (cityGen seed density).lotsDrawn := by
  obtain ⟨h1, h2⟩ := cityGen_inv seed density
  rw [createCityModel_buildings_eq, createCityModel_count_eq, h2, h1]
  refine ⟨?_, rfl, rfl⟩
  omega

/-- C6: Traffic wrap round-trip — for every vehicle cycle length `L > 0` and
starting progress `t ∈ [0,1)`, applying the per-tick update
`t = (t + speed*dt/L) % 1` over any finite sequence of ticks whose
increments `speed*dt` are positive and sum exactly to `L` returns the
vehicle to its starting progress, exactly, over exact rational arithmetic;
moreover `t` stays in `[0,1)` after every individual update. -/
theorem claim_c6_wrap_round_trip (speed L t0 : ℚ) (hL : 0 < L)
    (h0 : 0 ≤ t0) (h1 : t0 < 1) (dts : List ℚ)
    (hpos : ∀ dt ∈ dts, 0 < speed * dt)
    (hsum : (dts.map fun dt => speed * dt).sum = L) :
    List.foldl (fun t dt => advanceT t speed dt L) t0 dts = t0 ∧
    ∀ n : Nat,
      0 ≤ List.foldl (fun t dt => advanceT t speed dt L) t0 (dts.take n) ∧
      List.foldl (fun t dt => advanceT t speed dt L) t0 (dts.take n) < 1 := by
  have hfr : Int.fract t0 = t0 := Int.fract_eq_self.mpr ⟨h0, h1⟩
  have key : ∀ l : List ℚ, (∀ dt ∈ l, 0 < speed * dt) →
      List.foldl (fun t dt => advanceT t speed dt L) t0 l =
        Int.fract (t0 + (l.map fun dt => speed * dt).sum / L) := by
    intro l hl
    have h2 : List.foldl (fun t dt => advanceT t speed dt L) t0 l =
        List.foldl (fun t p => jsMod1 (t + p / L)) t0
          (l.map fun dt => speed * dt) := by
      rw [List.foldl_map]
      rfl
    rw [h2]
    have h3 := foldl_tick_eq L hL (l.map fun dt => speed * dt) t0 (by
      intro p hp
      rcases List.mem_map.mp hp with ⟨dt, hdt, rfl⟩
      exact hl dt hdt)
    rw [hfr] at h3
    exact h3
  constructor
  · rw [key dts hpos, hsum, div_self (ne_of_gt hL)]
    have hone : t0 + 1 = t0 + ((1 : ℤ) : ℚ) := by norm_num
    rw [hone, Int.fract_add_int, hfr]
  · intro n
    rw [key (dts.take n) fun dt hdt => hpos dt (List.take_subset n dts hdt)]
    exact ⟨Int.fract_nonneg _, Int.fract_lt_one _⟩

theorem claim_c6_witness :
    (0 : ℚ) < 910 ∧ (0 : ℚ) ≤ 1 / 2 ∧ (1 / 2 : ℚ) < 1 ∧
    (∀ dt ∈ [(25 : ℚ), 20.5], 0 < (20 : ℚ) * dt) ∧
    (([(25 : ℚ), 20.5].map fun dt => (20 : ℚ) * dt).sum = 910) ∧
    List.foldl (fun t dt => advanceT t 20 dt 910) (1 / 2) [(25 : ℚ), 20.5] =
      1 / 2 := by
  have h := claim_c6_wrap_round_trip 20 910 (1 / 2) (by norm_num) (by norm_num)
    (by norm_num) [(25 : ℚ), 20.5]
    (by
      intro dt hdt
      simp only [List.mem_cons, List.not_mem_nil, or_false] at hdt
      rcases hdt with rfl | rfl <;> norm_num)
    (by norm_num)
  refine ⟨by norm_num, by norm_num, by norm_num, ?_, by norm_num, h.1⟩
  intro dt hdt
  simp only [List.mem_cons, List.not_mem_nil, or_false] at hdt
  rcases hdt with rfl | rfl <;> norm_num

/-- C7: Lane confinement — for every vehicle, across any number of
`updateTraffic` ticks with arbitrary non-negative `dt` values, the computed
world position's coordinate on the lane's fixed perpendicular axis always
equals the lane's stored constant, and the yaw is always one of the four
fixed cardinal values determined solely by `(lane.axis, lane.dir)`. -/
theorem claim_c7_lane_confinement (c : Car) (dts : List ℚ)
    (_h : ∀ dt ∈ dts, 0 ≤ dt) :
    perpCoord c.lane
        (carPos (carTicks c dts).lane (carTicks c dts).t
          (carTicks c dts).length) = c.lane.coord ∧
    carYaw (carTicks c dts).lane = carYaw c.lane ∧
    (carYaw c.lane = -(Real.pi / 2) ∨ carYaw c.lane = Real.pi / 2 ∨
      carYaw c.lane = 0 ∨ carYaw c.lane = Real.pi) := by
  refine ⟨?_, by rw [carTicks_lane], carYaw_cases c.lane⟩
  rw [carTicks_lane]
  exact perpCoord_carPos c.lane _ _

theorem claim_c7_witness :
    (∀ dt ∈ [(1 : ℚ) / 20, 1 / 30], 0 ≤ dt) ∧
    (perpCoord (Lane.mk Axis.x (-6) 1)
        (carPos (carTicks (Car.mk 0 (Lane.mk Axis.x (-6) 1) 0 18 0 910)
            [(1 : ℚ) / 20, 1 / 30]).lane
          (carTicks (Car.mk 0 (Lane.mk Axis.x (-6) 1) 0 18 0 910)
            [(1 : ℚ) / 20, 1 / 30]).t
          (carTicks (Car.mk 0 (Lane.mk Axis.x (-6) 1) 0 18 0 910)
            [(1 : ℚ) / 20, 1 / 30]).length) = -6) := by
  have hd : ∀ dt ∈ [(1 : ℚ) / 20, 1 / 30], 0 ≤ dt := by
    intro dt hdt
    simp only [List.mem_cons, List.not_mem_nil, or_false] at hdt
    rcases hdt with rfl | rfl <;> norm_num
  exact ⟨hd, (claim_c7_lane_confinement
    (Car.mk 0 (Lane.mk Axis.x (-6) 1) 0 18 0 910) [(1 : ℚ) / 20, 1 / 30] hd).1⟩

/-- C8: Sequence generator contract — for every 32-bit unsigned seed state,
each call of the generator returns a value in `[0,1)` (total, no error
conditions), `randRange(a,b)` returns a value in `[a,b)` for `a < b`, and
`randInt(a,b)` returns an integer in `[a,b]` inclusive for all integers
`a ≤ b`. -/
theorem claim_c8_generator_contract (s : Nat) (_h : s < 2 ^ 32) :
    (0 ≤ (next s).1 ∧ (next s).1 < 1) ∧
    (∀ a b : ℚ, a < b →
      a ≤ (randRangeM s a b).1 ∧ (randRangeM s a b).1 < b) ∧
    (∀ a b : ℤ, a ≤ b →
      a ≤ (randIntM s a b).1 ∧ (randIntM s a b).1 ≤ b) := by
  refine ⟨⟨next_val_nonneg s, next_val_lt_one s⟩, ?_, ?_⟩
  · intro a b hab
    exact ⟨randRangeM_lb s a b (le_of_lt hab), randRangeM_ub s a b hab⟩
  · intro a b hab
    exact ⟨randIntM_lb s a b hab, randIntM_ub s a b hab⟩

theorem claim_c8_witness :
    (0 : Nat) < 2 ^ 32 ∧ (0 : ℚ) < 1 ∧ (3 : ℤ) ≤ 5 ∧
    (0 ≤ (next 0).1 ∧ (next 0).1 < 1) ∧
    ((0 : ℚ) ≤ (randRangeM 0 0 1).1 ∧ (randRangeM 0 0 1).1 < 1) ∧
    ((3 : ℤ) ≤ (randIntM 0 3 5).1 ∧ (randIntM 0 3 5).1 ≤ 5) := by
  refine ⟨by norm_num, by norm_num, by norm_num, ?_, ?_, ?_⟩
  · exact (claim_c8_generator_contract 0 (by norm_num)).1
  · exact (claim_c8_generator_contract 0 (by norm_num)).2.1 0 1 (by norm_num)
  · exact (claim_c8_generator_contract 0 (by norm_num)).2.2 3 5 (by norm_num)

/-- C9 (counterexample): "each owned resource is released exactly once per
city lifecycle" is false on the code.  `disposeCity` disposes per
reference, not per resource: the 13 horizontal road meshes share one plane
geometry (src/app.js lines 252–258), so one call disposes that geometry 13
times; the road material, shared by all 26 road meshes, is disposed 26
times; and the facade texture, being both `map` and `emissiveMap` of the
building material, is disposed twice by the materials-table loop.  Refuted
at a city holding exactly the road group and the building material entry:
the dispose-call count of the shared road geometry grows by 13, not 1. -/
theorem claim_c9_counterexample :
    ¬ (∀ (c : CityRes) (w w' : RenderWorld) (res : Nat),
        res ∈ ownedDisposeCalls c →
        disposeCity (some c) w = Except.ok w' →
        w'.disposeCalls.count res = w.disposeCalls.count res + 1) := by
  intro h
  have hc := h roadsOnlyCity (RenderWorld.mk [] []) _ 1 (by decide) rfl
  exact absurd hc (by decide)

/-- C9 (amended): calling `disposeCity` with no current city is a no-op
that returns without raising and leaves all state unchanged; every call —
including a second call on an already-disposed city, since the statement
holds for every world state — returns without raising; and one call issues
exactly one `dispose()` invocation per resource reference: the dispose-call
count of a resource grows by its reference count over the city's scene
nodes and materials table.  That count is at least one for every referenced
resource, but exceeds one for shared resources, so resources are released
once per reference rather than exactly once per lifecycle. -/
theorem claim_c9_dispose_reference_counts :
    (∀ w : RenderWorld, disposeCity none w = Except.ok w) ∧
    (∀ (c : Option CityRes) (w : RenderWorld), ∃ w' : RenderWorld,
      disposeCity c w = Except.ok w') ∧
    (∀ (c : CityRes) (w w' : RenderWorld) (res : Nat),
      disposeCity (some c) w = Except.ok w' →
      w'.disposeCalls.count res =
        w.disposeCalls.count res + (ownedDisposeCalls c).count res) ∧
    (∀ (c : CityRes) (res : Nat), res ∈ ownedDisposeCalls c →
      1 ≤ (ownedDisposeCalls c).count res) := by
  refine ⟨fun w => rfl, ?_, ?_, ?_⟩
  · intro c w
    cases c with
    | none => exact ⟨w, rfl⟩
    | some c =>
      exact ⟨{ sceneGroups := w.sceneGroups.erase c.group,
               disposeCalls := w.disposeCalls ++ ownedDisposeCalls c }, rfl⟩
  · intro c w w' res hok
    have hw : w' = { sceneGroups := w.sceneGroups.erase c.group,
                     disposeCalls := w.disposeCalls ++ ownedDisposeCalls c } := by
      cases hok
      rfl
    subst hw
    simp [List.count_append]
  · intro c res hmem
    exact List.count_pos_iff.mpr hmem

theorem claim_c9_dispose_witness :
    disposeCity none (RenderWorld.mk [1] []) =
      Except.ok (RenderWorld.mk [1] []) ∧
    (∃ w', disposeCity (some roadsOnlyCity) (RenderWorld.mk [1] []) =
      Except.ok w') ∧
    disposeCity (some roadsOnlyCity) (RenderWorld.mk [1] []) =
      Except.ok (RenderWorld.mk (([1] : List Nat).erase 0)
        (([] : List Nat) ++ ownedDisposeCalls roadsOnlyCity)) ∧
    ((RenderWorld.mk (([1] : List Nat).erase 0)
        (([] : List Nat) ++ ownedDisposeCalls roadsOnlyCity)).disposeCalls.count 1 =
      (RenderWorld.mk [1] ([] : List Nat)).disposeCalls.count 1 +
        (ownedDisposeCalls roadsOnlyCity).count 1) ∧
    ((1 : Nat) ∈ ownedDisposeCalls roadsOnlyCity) ∧
    1 ≤ (ownedDisposeCalls roadsOnlyCity).count 1 := by
  refine ⟨claim_c9_dispose_reference_counts.1 _,
    claim_c9_dispose_reference_counts.2.1 _ _, rfl, ?_, by decide, ?_⟩
  · exact claim_c9_dispose_reference_counts.2.2.1 roadsOnlyCity
      (RenderWorld.mk [1] []) _ 1 rfl
  · exact claim_c9_dispose_reference_counts.2.2.2 roadsOnlyCity 1 (by decide)

/-! Concrete witness data: for seed 6 and density 1 the first block (0,0)
is not a park, and its first lot is generated from state 567894479; the
resulting building protrudes into the roads at x = -420 and z = -420. -/

theorem mOutPark : mulberryOut 3031295962 = 868282189 := by decide

theorem mOutX : mulberryOut 2399460292 = 303928501 := by decide

theorem mOutZ : mulberryOut 4231026105 = 19489881 := by decide

theorem mOutFp : mulberryOut 1767624622 = 3955348776 := by decide

theorem mOutDp : mulberryOut 3599190435 = 4168504735 := by decide

theorem witSt : (randIntM (next 1199730149).2 8 18).2 = 567894479 := by decide

theorem b0_mem :
    (genLot 0 0 567894479).1 ∈ (createCityModel 6 1).buildings := by
  rw [createCityModel_buildings_eq]
  simp only [cityGen]
  have hr : (randIntM (randIntM (randIntM 6 6 10).2 12 20).2 0 3).2 =
      1199730149 := by decide
  rw [hr]
  apply mem_foldl_headI 1 blockList _ _ (by decide)
  have hh : blockList.headI = (0, 0) := by decide
  rw [hh]
  simp only [blockStep]
  rw [if_neg (show ¬ ((next 1199730149).1 < parkChance) by
    norm_num [next, nextState, M32, parkChance, mOutPark])]
  simp only [List.nil_append]
  rw [witSt]
  apply lotLoop_first_mem
  · have h2 : (2 : ℤ) ≤
        max 2 (jsRound ((((randIntM (next 1199730149).2 8 18).1 : ℤ) : ℚ) * 1)) :=
      le_max_left _ _
    omega
  · norm_num [totalEstN, totalEst, buildingCountEstimate, jsRound,
      blocksX, blocksZ]

theorem b0_x_val :
    (genLot 0 0 567894479).1.x = -850747421391 / 2147483648 := by
  show (randRangeM 567894479 (lotMinX 0) (lotMaxX 0)).1 = _
  norm_num [randRangeM, next, nextState, M32, lotMinX, lotMaxX, blockSize,
    citySizeX, roadWidth, lotPadding, blocksX, mOutX]

theorem b0_z_val :
    (genLot 0 0 567894479).1.z = -854445123451 / 2147483648 := by
  show (randRangeM (randRangeM 567894479 (lotMinX 0) (lotMaxX 0)).2
      (lotMinZ 0) (lotMaxZ 0)).1 = _
  norm_num [randRangeM, next, nextState, M32, lotMinZ, lotMaxZ, blockSize,
    citySizeZ, roadWidth, lotPadding, blocksZ, mOutZ]

theorem b0_footprint_val :
    (genLot 0 0 567894479).1.footprint = 1031289509 / 67108864 := by
  show (randRangeM (randRangeM (randRangeM 567894479 (lotMinX 0)
      (lotMaxX 0)).2 (lotMinZ 0) (lotMaxZ 0)).2 8 16).1 = _
  norm_num [randRangeM, next, nextState, M32, mOutFp]

theorem b0_depth_val :
    (genLot 0 0 567894479).1.depth = 8463472031 / 536870912 := by
  show (randRangeM (randRangeM (randRangeM (randRangeM 567894479 (lotMinX 0)
      (lotMaxX 0)).2 (lotMinZ 0) (lotMaxZ 0)).2 8 16).2 8 16).1 = _
  norm_num [randRangeM, next, nextState, M32, mOutDp]

theorem assembleCity_roads (seed : Nat) (st : GenSt) :
    (assembleCity seed st).roads = roadsList := rfl

theorem createCityModel_roads_eq (seed : Nat) (density : ℚ) :
    (createCityModel seed density).roads = roadsList := by
  rw [createCityModel]
  exact assembleCity_roads seed _

theorem road_neg420_mem : (Road.mk Axis.z (-420)) ∈ roadsList := by
  unfold roadsList
  refine List.mem_append_right _ (List.mem_map.mpr ⟨0, ?_, ?_⟩)
  · simp [blocksX]
  · simp only [Road.mk.injEq]
    norm_num [blockSize, citySizeX, blocksX]

/-- C3: Building height formula — every generated building's height equals
`pow(u1, 1.8) * u2` where `u1` is the `randRange(0.2, 1.0)` draw and `u2`
the subsequent `randRange(20, 150)` draw from the city's generator, taken
immediately after the footprint width (draw 2 of the lot) and depth (draw
3) draws for that lot: `u1` is draw 4 and `u2` draw 5 of the same lot's
draw sequence, and the height is exactly the two-draw transform. -/
theorem claim_c3_height_formula (seed : Nat) (density : ℚ) (b : Building)
    (hb : b ∈ (createCityModel seed density).buildings) :
    ∃ s : Nat,
      b = (genLot b.bx b.bz s).1 ∧
      b.footprint = (randRangeM (advState s 2) 8 16).1 ∧
      b.depth = (randRangeM (advState s 3) 8 16).1 ∧
      b.hBase = (randRangeM (advState s 4) 0.2 1.0).1 ∧
      b.hScale = (randRangeM (advState s 5) 20 150).1 ∧
      0.2 ≤ b.hBase ∧ b.hBase < 1 ∧ 20 ≤ b.hScale ∧ b.hScale < 150 ∧
      heightR b = (b.hBase : ℝ) ^ (1.8 : ℝ) * (b.hScale : ℝ) := by
  obtain ⟨hbx, hbz, s, hbs⟩ := createCityModel_buildings_ok seed density b hb
  refine ⟨s, hbs, ?_, ?_, ?_, ?_, ?_, ?_, ?_, ?_, rfl⟩
  · exact (congrArg Building.footprint hbs).trans (genLot_footprint_draw _ _ _)
  · exact (congrArg Building.depth hbs).trans (genLot_depth_draw _ _ _)
  · exact (congrArg Building.hBase hbs).trans (genLot_hBase_draw _ _ _)
  · exact (congrArg Building.hScale hbs).trans (genLot_hScale_draw _ _ _)
  · rw [congrArg Building.hBase hbs]
    exact (genLot_hBase_mem _ _ _).1
  · rw [congrArg Building.hBase hbs]
    exact (genLot_hBase_mem _ _ _).2
  · rw [congrArg Building.hScale hbs]
    exact (genLot_hScale_mem _ _ _).1
  · rw [congrArg Building.hScale hbs]
    exact (genLot_hScale_mem _ _ _).2

theorem claim_c3_witness :
    ((genLot 0 0 567894479).1 ∈ (createCityModel 6 1).buildings) ∧
    (∃ s : Nat,
      (genLot 0 0 567894479).1 = (genLot (genLot 0 0 567894479).1.bx
        (genLot 0 0 567894479).1.bz s).1 ∧
      (genLot 0 0 567894479).1.footprint =
        (randRangeM (advState s 2) 8 16).1 ∧
      (genLot 0 0 567894479).1.depth = (randRangeM (advState s 3) 8 16).1 ∧
      (genLot 0 0 567894479).1.hBase =
        (randRangeM (advState s 4) 0.2 1.0).1 ∧
      (genLot 0 0 567894479).1.hScale =
        (randRangeM (advState s 5) 20 150).1 ∧
      0.2 ≤ (genLot 0 0 567894479).1.hBase ∧
      (genLot 0 0 567894479).1.hBase < 1 ∧
      20 ≤ (genLot 0 0 567894479).1.hScale ∧
      (genLot 0 0 567894479).1.hScale < 150 ∧
      heightR (genLot 0 0 567894479).1 =
        ((genLot 0 0 567894479).1.hBase : ℝ) ^ (1.8 : ℝ) *
          ((genLot 0 0 567894479).1.hScale : ℝ)) :=
  ⟨b0_mem, claim_c3_height_formula 6 1 _ b0_mem⟩

/-- C4: Building bounds — for every generated building, its sampled center
position lies within its parent block's lot rectangle, its height lies in
`[0, 150]` and is non-negative, and its footprint width and depth each lie
in `[8, 16]`. -/
theorem claim_c4_building_bounds (seed : Nat) (density : ℚ) (b : Building)
    (hb : b ∈ (createCityModel seed density).buildings) :
    lotMinX b.bx ≤ b.x ∧ b.x ≤ lotMaxX b.bx ∧
    lotMinZ b.bz ≤ b.z ∧ b.z ≤ lotMaxZ b.bz ∧
    0 ≤ heightR b ∧ heightR b ≤ 150 ∧
    8 ≤ b.footprint ∧ b.footprint ≤ 16 ∧
    8 ≤ b.depth ∧ b.depth ≤ 16 := by
  obtain ⟨hbx, hbz, s, hbs⟩ := createCityModel_buildings_ok seed density b hb
  have hx := genLot_x_mem b.bx b.bz s
  have hz := genLot_z_mem b.bx b.bz s
  have hf := genLot_footprint_mem b.bx b.bz s
  have hd := genLot_depth_mem b.bx b.bz s
  have hhb := genLot_hBase_mem b.bx b.bz s
  have hhs := genLot_hScale_mem b.bx b.bz s
  rw [← hbs] at hx hz hf hd hhb hhs
  exact ⟨hx.1, le_of_lt hx.2, hz.1, le_of_lt hz.2,
    heightR_nonneg b hhb.1 hhs.1,
    heightR_le b hhb.1 hhb.2 hhs.1 hhs.2,
    hf.1, le_of_lt hf.2, hd.1, le_of_lt hd.2⟩

theorem claim_c4_witness :
    ((genLot 0 0 567894479).1 ∈ (createCityModel 6 1).buildings) ∧
    (lotMinX (genLot 0 0 567894479).1.bx ≤ (genLot 0 0 567894479).1.x ∧
    (genLot 0 0 567894479).1.x ≤ lotMaxX (genLot 0 0 567894479).1.bx ∧
    lotMinZ (genLot 0 0 567894479).1.bz ≤ (genLot 0 0 567894479).1.z ∧
    (genLot 0 0 567894479).1.z ≤ lotMaxZ (genLot 0 0 567894479).1.bz ∧
    0 ≤ heightR (genLot 0 0 567894479).1 ∧
    heightR (genLot 0 0 567894479).1 ≤ 150 ∧
    8 ≤ (genLot 0 0 567894479).1.footprint ∧
    (genLot 0 0 567894479).1.footprint ≤ 16 ∧
    8 ≤ (genLot 0 0 567894479).1.depth ∧
    (genLot 0 0 567894479).1.depth ≤ 16) :=
  ⟨b0_mem, claim_c4_building_bounds 6 1 _ b0_mem⟩

/-- C10: Implicit strict lower bound on height — every generated building's
height is at least `pow(0.2, 1.8) * 20`, which is strictly positive, so the
stated range `[0, 150]` is never attained near 0 and no degenerate flat
building is ever produced. -/
theorem claim_c10_height_strict_lower_bound (seed : Nat) (density : ℚ)
    (b : Building) (hb : b ∈ (createCityModel seed density).buildings) :
    (0.2 : ℝ) ^ (1.8 : ℝ) * 20 ≤ heightR b ∧
    0 < (0.2 : ℝ) ^ (1.8 : ℝ) * 20 ∧ 0 < heightR b := by
  obtain ⟨hbx, hbz, s, hbs⟩ := createCityModel_buildings_ok seed density b hb
  have hhb := genLot_hBase_mem b.bx b.bz s
  have hhs := genLot_hScale_mem b.bx b.bz s
  rw [← hbs] at hhb hhs
  have hlb := heightR_lb b hhb.1 hhs.1
  exact ⟨hlb, heightR_lb_pos, lt_of_lt_of_le heightR_lb_pos hlb⟩

theorem claim_c10_witness :
    ((genLot 0 0 567894479).1 ∈ (createCityModel 6 1).buildings) ∧
    ((0.2 : ℝ) ^ (1.8 : ℝ) * 20 ≤ heightR (genLot 0 0 567894479).1 ∧
    0 < (0.2 : ℝ) ^ (1.8 : ℝ) * 20 ∧ 0 < heightR (genLot 0 0 567894479).1) :=
  ⟨b0_mem, claim_c10_height_strict_lower_bound 6 1 _ b0_mem⟩

/-- C5 (counterexample): the original claim — every building's footprint
rectangle is disjoint from every road rectangle — is false on the code: for
seed 6 and density 1 the first generated building (block (0,0), center
x ≈ -396.16, footprint ≈ 15.37) overlaps the road strip at x = -420, whose
rectangle extends to x = -402, because the half footprint (up to 8) exceeds
the lot padding (4). -/
theorem claim_c5_counterexample :
    ¬ (∀ b ∈ (createCityModel 6 1).buildings,
        ∀ r ∈ (createCityModel 6 1).roads,
          ¬ rectOverlap (footRect b) (roadRect r)) := by
  intro h
  have hroad : (Road.mk Axis.z (-420)) ∈ (createCityModel 6 1).roads := by
    rw [createCityModel_roads_eq]
    exact road_neg420_mem
  refine h _ b0_mem _ hroad ?_
  unfold rectOverlap footRect roadRect
  simp only []
  rw [b0_x_val, b0_footprint_val, b0_z_val, b0_depth_val]
  norm_num [roadWidth, citySizeZ, blockSize, blocksZ]

/-- C5 (amended): no building center ever lies inside or within `lotPadding`
of a road rectangle — the square of half-extent `lotPadding = 4` around the
building center is disjoint from every road rectangle, because the lot
rectangle is shrunk by half the road width plus the padding; the full
footprint (half-extent up to 8) can however protrude up to 4 units into a
road, so disjointness holds only for the padded center square, not for the
whole footprint. -/
theorem claim_c5_padding_separation (seed : Nat) (density : ℚ)
    (b : Building) (r : Road)
    (hb : b ∈ (createCityModel seed density).buildings)
    (hr : r ∈ (createCityModel seed density).roads) :
    ¬ rectOverlap (padRect b) (roadRect r) := by
  have hlot := createCityModel_buildings_ok seed density b hb
  rw [createCityModel_roads_eq] at hr
  exact padRect_road_disjoint b hlot r hr

theorem claim_c5_witness :
    ((genLot 0 0 567894479).1 ∈ (createCityModel 6 1).buildings) ∧
    ((Road.mk Axis.z (-420)) ∈ (createCityModel 6 1).roads) ∧
    ¬ rectOverlap (padRect (genLot 0 0 567894479).1)
        (roadRect (Road.mk Axis.z (-420))) := by
  have hroad : (Road.mk Axis.z (-420)) ∈ (createCityModel 6 1).roads := by
    rw [createCityModel_roads_eq]
    exact road_neg420_mem
  exact ⟨b0_mem, hroad, claim_c5_padding_separation 6 1 _ _ b0_mem hroad⟩

end CityApp
